import Mathlib

/-
Verification of the G1 epoch synchronization protocol sources
(g1EpochSynchronizer.cpp / .hpp, the native-comparison generation,
g1EpochSynchronizerStats.cpp) over a shallow embedding.

Machine integers of type uintx (pointer width, 64 bits) are modelled as
Nat with explicit reduction modulo 2^64.  Stateful code is modelled by
explicit state passing over an EpochState record; the sequential embedding
takes the single-initiator view in which a compare-and-swap succeeds.
-/

/-- modulus of the uintx counters: 2 to the pointer width (64 bits). -/
def uintx_mod : Nat := 2 ^ 64

/-- largest uintx value, the C++ constant max_uintx. -/
def max_uintx : Nat := 2 ^ 64 - 1

/-- unsigned wrap-around subtraction on uintx: the value of the C++
expression (a - b) on uintx operands. -/
def sub_wrap (a b : Nat) : Nat :=
  (a % uintx_mod + (uintx_mod - b % uintx_mod)) % uintx_mod

/-- wrap-aware comparator from G1EpochSynchronizer::frontier_happens_before:
returns true if f1 is logically strictly smaller than f2, implemented as
the C++ test (f1 - f2) > (max_uintx / 2) on uintx operands. -/
def frontier_happens_before (f1 f2 : Nat) : Bool :=
  decide (sub_wrap f1 f2 > max_uintx / 2)

lemma uintx_mod_eq : uintx_mod = 18446744073709551616 := by norm_num [uintx_mod]

lemma max_uintx_eq : max_uintx = 18446744073709551615 := by norm_num [max_uintx]

lemma sub_wrap_eq_int (a b : Nat) :
    (sub_wrap a b : Int) = ((a : Int) - (b : Int)) % (18446744073709551616 : Int) := by
  unfold sub_wrap
  rw [uintx_mod_eq]
  omega

/-- C9: the wrap-aware comparator is the stated pure function, the test
whether (a - b) reduced modulo 2^64 exceeds max_uintx / 2, and it is
irreflexive: frontier_happens_before a a = false for every a. -/
theorem frontier_happens_before_spec (a b : Nat) :
    (frontier_happens_before a b =
      decide ((((a : Int) - (b : Int)) % (2 ^ 64 : Int)) > ((max_uintx : Int) / 2))) ∧
    frontier_happens_before a a = false := by
  have hint : ((2 : Int) ^ 64) = (18446744073709551616 : Int) := by norm_num
  constructor
  · unfold frontier_happens_before
    rw [decide_eq_decide, hint, max_uintx_eq]
    have h := sub_wrap_eq_int a b
    omega
  · unfold frontier_happens_before
    have h0 : sub_wrap a a = 0 := by
      unfold sub_wrap
      rw [uintx_mod_eq]
      omega
    rw [h0, max_uintx_eq]
    decide

/-- update_global_frontier of the native-comparison generation: raise the
global frontier to latest_frontier when global_frontier < latest_frontier,
using the native unsigned comparison.  The cmpxchg of the source succeeds
in this sequential single-initiator embedding. -/
def update_global_frontier_native (gf latest_frontier : Nat) : Nat :=
  if gf < latest_frontier then latest_frontier else gf

/-- check_frontier_helper of the native-comparison generation: succeed and
raise the global frontier when latest_frontier >= required_frontier, on the
raw unsigned values.  Returns the result together with the new frontier. -/
def check_frontier_helper_native (gf latest_frontier required_frontier : Nat) : Bool × Nat :=
  if latest_frontier ≥ required_frontier then
    (true, update_global_frontier_native gf latest_frontier)
  else
    (false, gf)

/-- update_global_frontier of the wrap-aware generation
(g1EpochSynchronizer.cpp): raise the global frontier to latest_frontier when
frontier_happens_before(global_frontier, latest_frontier). -/
def update_global_frontier (gf latest_frontier : Nat) : Nat :=
  if frontier_happens_before gf latest_frontier then latest_frontier else gf

/-- check_frontier_helper of the wrap-aware generation: succeed and raise the
global frontier when not frontier_happens_before(latest, required). -/
def check_frontier_helper (gf latest_frontier required_frontier : Nat) : Bool × Nat :=
  if !frontier_happens_before latest_frontier required_frontier then
    (true, update_global_frontier gf latest_frontier)
  else
    (false, gf)

/-- two uintx values that differ by at most half the counter range, so that
no wrap-around separates them (the regime the source comments assume for
live epoch counters). -/
def within_half_range (a b : Nat) : Prop :=
  a < uintx_mod ∧ b < uintx_mod ∧ a - b ≤ max_uintx / 2 ∧ b - a ≤ max_uintx / 2

lemma frontier_happens_before_eq_lt (a b : Nat) (h : within_half_range a b) :
    frontier_happens_before a b = decide (a < b) := by
  obtain ⟨ha, hb, hab, hba⟩ := h
  unfold frontier_happens_before
  rw [decide_eq_decide]
  unfold sub_wrap
  rw [uintx_mod_eq] at *
  rw [max_uintx_eq] at *
  omega

/-- C7: refinement between comparator generations.  When latest_frontier and
required_frontier lie within half the counter range of each other, and the
loaded global_frontier lies within half the range of latest_frontier, the
wrap-aware check_frontier_helper and update_global_frontier compute exactly
what the native-comparison generation computes. -/
theorem check_frontier_helper_refinement (gf latest_frontier required_frontier : Nat)
    (h1 : within_half_range latest_frontier required_frontier)
    (h2 : within_half_range gf latest_frontier) :
    check_frontier_helper gf latest_frontier required_frontier =
      check_frontier_helper_native gf latest_frontier required_frontier ∧
    update_global_frontier gf latest_frontier =
      update_global_frontier_native gf latest_frontier := by
  have e1 := frontier_happens_before_eq_lt latest_frontier required_frontier h1
  have e2 := frontier_happens_before_eq_lt gf latest_frontier h2
  have hupd : update_global_frontier gf latest_frontier =
      update_global_frontier_native gf latest_frontier := by
    unfold update_global_frontier update_global_frontier_native
    rw [e2]
    by_cases hgl : gf < latest_frontier <;> simp [hgl]
  refine ⟨?_, hupd⟩
  unfold check_frontier_helper check_frontier_helper_native
  rw [e1, hupd]
  by_cases hlr : latest_frontier < required_frontier
  · have hge : ¬ (required_frontier ≤ latest_frontier) := by omega
    simp [hlr, hge]
  · have hge : required_frontier ≤ latest_frontier := by omega
    simp [hlr, hge]

/-- witness for C7 at concrete inputs gf = 3, latest = 7, required = 5. -/
theorem check_frontier_helper_refinement_witness :
    check_frontier_helper 3 7 5 = check_frontier_helper_native 3 7 5 ∧
    update_global_frontier 3 7 = update_global_frontier_native 3 7 :=
  check_frontier_helper_refinement 3 7 5
    (by unfold within_half_range; decide) (by unfold within_half_range; decide)

/-- global and per-thread protocol state.  global_epoch and global_frontier
are the padded atomics; epochs lists the local_epoch slot of each live
mutator thread in iteration order; reset_scheduled and pending_sync model
the reset flag and the debug counter. -/
structure EpochState where
  global_epoch : Nat
  global_frontier : Nat
  epochs : List Nat
  reset_scheduled : Bool
  pending_sync : Nat
deriving DecidableEq

/-- min-epoch fold of G1FindMinEpochAndCollectThreadsClosure in the
wrap-aware generation: _min_epoch starts at max_uintx and is replaced by an
observed epoch exactly when frontier_happens_before(epoch, _min_epoch). -/
def scan_min_epoch (epochs : List Nat) : Nat :=
  epochs.foldl (fun m e => if frontier_happens_before e m then e else m) max_uintx

/-- min-epoch fold of G1FindMinEpochAndCollectThreadsClosure in the
native-comparison generation, which uses MIN2(_min_epoch, epoch). -/
def scan_min_epoch_native (epochs : List Nat) : Nat :=
  epochs.foldl (fun m e => Nat.min m e) max_uintx

/-- one thread visit of G1FindMinEpochAndArmPollClosure::do_thread.  The
thread is given as its loaded epoch together with an oracle: the refreshed
epoch value when the delegate-processing scope finds the thread parked and
performs the update on its behalf (none when the scope does not process).
The accumulator carries (_min_epoch, _armed_threads); report_straggler only
logs, so it has no effect on the model state. -/
def arm_poll_step (required_frontier : Nat) (arm_poll : Bool)
    (acc : Nat × Nat) (t : Nat × Option Nat) : Nat × Nat :=
  let refreshed :=
    if arm_poll && frontier_happens_before t.1 required_frontier then
      ((match t.2 with
        | some e => e
        | none => t.1), acc.2 + 1)
    else
      (t.1, acc.2)
  (if frontier_happens_before refreshed.1 acc.1 then refreshed.1 else acc.1,
   refreshed.2)

/-- full scan of G1FindMinEpochAndArmPollClosure over the thread list,
returning (min_epoch, armed_threads). -/
def scan_min_arm_poll (required_frontier : Nat) (arm_poll : Bool)
    (threads : List (Nat × Option Nat)) : Nat × Nat :=
  threads.foldl (arm_poll_step required_frontier arm_poll) (max_uintx, 0)

/-- Atomic::dec on the size_t counter _pending_sync, wrapping modulo 2^64:
decrement by one, with 0 wrapping to max_uintx.  The lemma
dec_pending_wrap_eq below identifies this with the modular form
(p + 2^64 - 1) mod 2^64 on every in-range value. -/
def dec_pending_wrap (p : Nat) : Nat :=
  if p = 0 then max_uintx else p - 1

lemma dec_pending_wrap_eq (p : Nat) (h : p < uintx_mod) :
    dec_pending_wrap p = (p + (uintx_mod - 1)) % uintx_mod := by
  unfold dec_pending_wrap
  rw [uintx_mod_eq] at *
  rw [max_uintx_eq]
  by_cases h0 : p = 0
  · subst h0
    decide
  · rw [if_neg h0]
    omega

/-- G1EpochSynchronizer::check_synchronized_inner of the wrap-aware
generation, for an initiator on a concurrent-refinement thread (the caller
branch that performs no self epoch update): acquire-load the global
frontier, return true on the fast path, otherwise scan all threads and
decide through check_frontier_helper, which may raise the global frontier.
Returns the result and the updated state. -/
def check_synchronized_inner (s : EpochState) (required_frontier : Nat) :
    Bool × EpochState :=
  if !frontier_happens_before s.global_frontier required_frontier then
    (true, s)
  else
    let m := scan_min_epoch s.epochs
    let r := check_frontier_helper s.global_frontier m required_frontier
    (r.1, { s with global_frontier := r.2 })

/-- G1EpochSynchronizer::check_synchronized: run the inner check and, when
it returns true, decrement _pending_sync. -/
def check_synchronized (s : EpochState) (required_frontier : Nat) :
    Bool × EpochState :=
  let r := check_synchronized_inner s required_frontier
  if r.1 then
    (r.1, { r.2 with pending_sync := dec_pending_wrap r.2.pending_sync })
  else
    r

/-- G1EpochSynchronizer::start_synchronizing of the wrap-aware generation:
increment _pending_sync, fetch-add 1 to the global epoch (full fence in the
source); the value returned by Atomic::add, the new epoch, becomes the
required frontier. -/
def start_synchronizing (s : EpochState) : Nat × EpochState :=
  let p := (s.pending_sync + 1) % uintx_mod
  let ge := (s.global_epoch + 1) % uintx_mod
  (ge, { s with pending_sync := p, global_epoch := ge })

/-- the G1EpochSynchronizer(bool start_sync) constructor: _required_frontier
is start_synchronizing() when start_sync, and 0 otherwise.  Returns the
required frontier of the new initiator and the updated global state. -/
def construct_synchronizer (start_sync : Bool) (s : EpochState) :
    Nat × EpochState :=
  if start_sync then start_synchronizing s else (0, s)

lemma check_synchronized_inner_eq (s : EpochState) (required_frontier : Nat) :
    check_synchronized_inner s required_frontier =
      if frontier_happens_before s.global_frontier required_frontier = false then
        (true, s)
      else if frontier_happens_before (scan_min_epoch s.epochs) required_frontier = false then
        (true, { s with global_frontier :=
                   update_global_frontier s.global_frontier (scan_min_epoch s.epochs) })
      else
        (false, s) := by
  unfold check_synchronized_inner check_frontier_helper
  by_cases h1 : frontier_happens_before s.global_frontier required_frontier <;>
    by_cases h2 : frontier_happens_before (scan_min_epoch s.epochs) required_frontier <;>
      simp [h1, h2]

lemma check_synchronized_eq (s : EpochState) (required_frontier : Nat) :
    check_synchronized s required_frontier =
      if frontier_happens_before s.global_frontier required_frontier = false then
        (true, { s with pending_sync := dec_pending_wrap s.pending_sync })
      else if frontier_happens_before (scan_min_epoch s.epochs) required_frontier = false then
        (true, { s with
                  global_frontier :=
                    update_global_frontier s.global_frontier (scan_min_epoch s.epochs),
                  pending_sync := dec_pending_wrap s.pending_sync })
      else
        (false, s) := by
  unfold check_synchronized check_synchronized_inner check_frontier_helper
  by_cases h1 : frontier_happens_before s.global_frontier required_frontier <;>
    by_cases h2 : frontier_happens_before (scan_min_epoch s.epochs) required_frontier <;>
      simp [h1, h2]

/-- C2: check_synchronized returns true exactly when the loaded global
frontier already meets the required frontier, or the min_epoch produced by
the thread scan meets it; on the fast path the frontier is untouched, on
the scan path it is raised through update_global_frontier, and when both
tests fail the call returns false and changes nothing. -/
theorem check_synchronized_characterization (s : EpochState) (required_frontier : Nat) :
    ((check_synchronized s required_frontier).1 = true ↔
       (frontier_happens_before s.global_frontier required_frontier = false ∨
        frontier_happens_before (scan_min_epoch s.epochs) required_frontier = false)) ∧
    (frontier_happens_before s.global_frontier required_frontier = false →
       (check_synchronized s required_frontier).2.global_frontier = s.global_frontier) ∧
    (frontier_happens_before s.global_frontier required_frontier = true →
     frontier_happens_before (scan_min_epoch s.epochs) required_frontier = false →
       (check_synchronized s required_frontier).2.global_frontier =
         update_global_frontier s.global_frontier (scan_min_epoch s.epochs)) ∧
    (frontier_happens_before s.global_frontier required_frontier = true →
     frontier_happens_before (scan_min_epoch s.epochs) required_frontier = true →
       (check_synchronized s required_frontier).1 = false ∧
       (check_synchronized s required_frontier).2 = s) := by
  refine ⟨?_, ?_, ?_, ?_⟩
  · by_cases h1 : frontier_happens_before s.global_frontier required_frontier
    · by_cases h2 : frontier_happens_before (scan_min_epoch s.epochs) required_frontier
      · rw [check_synchronized_eq, h1, h2]
        simp
      · rw [Bool.not_eq_true] at h2
        rw [check_synchronized_eq, h1, h2]
        simp
    · rw [Bool.not_eq_true] at h1
      rw [check_synchronized_eq, h1]
      simp [h1]
  · intro h1
    rw [check_synchronized_eq, h1]
    simp
  · intro h1 h2
    rw [check_synchronized_eq, h1, h2]
    simp
  · intro h1 h2
    rw [check_synchronized_eq, h1, h2]
    simp

/-- C6 (code bug): on a single mutator whose local epoch is 5 — trivially
within half the counter range of itself — the wrap-aware min-epoch folds of
both scan closures leave min_epoch at the initial sentinel max_uintx, which
is not the minimum observed epoch; the native-comparison generation, which
uses MIN2, returns the true minimum 5.  The delegate refresh of the
arm-poll variant does not repair the fold either. -/
theorem scan_min_epoch_missed_minimum :
    scan_min_epoch [5] = max_uintx ∧
    (scan_min_arm_poll 6 false [(5, none)]).1 = max_uintx ∧
    (scan_min_arm_poll 6 true [(5, some 6)]).1 = max_uintx ∧
    max_uintx ≠ 5 ∧
    scan_min_epoch_native [5] = 5 := by
  refine ⟨by decide, by decide, by decide, by decide, by decide⟩

/-- C3 (amended): a second call to check_synchronized after a first call
has returned true returns true again and leaves global_frontier unchanged,
but it is not a no-op in observable state: every call that returns true
runs dec_pending_sync, so the repeated call decrements _pending_sync a
second time. -/
theorem check_synchronized_repeat (s : EpochState) (required_frontier : Nat)
    (h : (check_synchronized s required_frontier).1 = true) :
    ((check_synchronized (check_synchronized s required_frontier).2 required_frontier).1
        = true) ∧
    ((check_synchronized (check_synchronized s required_frontier).2 required_frontier).2.global_frontier
        = (check_synchronized s required_frontier).2.global_frontier) ∧
    ((check_synchronized (check_synchronized s required_frontier).2 required_frontier).2.pending_sync
        = dec_pending_wrap (check_synchronized s required_frontier).2.pending_sync) := by
  by_cases h1 : frontier_happens_before s.global_frontier required_frontier
  · by_cases h2 : frontier_happens_before (scan_min_epoch s.epochs) required_frontier
    · rw [check_synchronized_eq, h1, h2] at h
      simp at h
    · rw [Bool.not_eq_true] at h2
      have e1 : check_synchronized s required_frontier =
          (true, { s with
                    global_frontier :=
                      update_global_frontier s.global_frontier (scan_min_epoch s.epochs),
                    pending_sync := dec_pending_wrap s.pending_sync }) := by
        rw [check_synchronized_eq, h1, h2]
        simp
      rw [e1]
      by_cases h3 : frontier_happens_before
          (update_global_frontier s.global_frontier (scan_min_epoch s.epochs)) required_frontier
      · have hgm : frontier_happens_before s.global_frontier (scan_min_epoch s.epochs) = false := by
          by_cases h4 : frontier_happens_before s.global_frontier (scan_min_epoch s.epochs)
          · exfalso
            unfold update_global_frontier at h3
            rw [h4] at h3
            simp at h3
            rw [h3] at h2
            simp at h2
          · rw [Bool.not_eq_true] at h4
            exact h4
        have hupd : update_global_frontier s.global_frontier (scan_min_epoch s.epochs)
            = s.global_frontier := by
          unfold update_global_frontier
          rw [hgm]
          simp
        rw [check_synchronized_eq]
        simp only [hupd, h1, h2]
        simp
      · rw [Bool.not_eq_true] at h3
        rw [check_synchronized_eq]
        simp only [h3]
        simp
  · rw [Bool.not_eq_true] at h1
    have e1 : check_synchronized s required_frontier =
        (true, { s with pending_sync := dec_pending_wrap s.pending_sync }) := by
      rw [check_synchronized_eq, h1]
      simp
    rw [e1]
    rw [check_synchronized_eq]
    simp only [h1]
    simp

/-- counterexample to C3 as stated: from global_frontier 5, required
frontier 3 and _pending_sync 1, the first check_synchronized returns true
and leaves _pending_sync at 0, and a second call decrements it again
(wrapping below zero), so the second call is not a no-op. -/
theorem check_synchronized_double_decrement :
    (check_synchronized ⟨9, 5, [], false, 1⟩ 3).1 = true ∧
    (check_synchronized ⟨9, 5, [], false, 1⟩ 3).2.pending_sync = 0 ∧
    (check_synchronized (check_synchronized ⟨9, 5, [], false, 1⟩ 3).2 3).2.pending_sync ≠ 0 := by
  refine ⟨by decide, by decide, by decide⟩

/-- witness for C3 at the concrete state with global_frontier 5,
required frontier 3 and _pending_sync 1. -/
theorem check_synchronized_repeat_witness :
    ((check_synchronized (check_synchronized ⟨9, 5, [], false, 1⟩ 3).2 3).1 = true) ∧
    ((check_synchronized (check_synchronized ⟨9, 5, [], false, 1⟩ 3).2 3).2.global_frontier
        = (check_synchronized ⟨9, 5, [], false, 1⟩ 3).2.global_frontier) ∧
    ((check_synchronized (check_synchronized ⟨9, 5, [], false, 1⟩ 3).2 3).2.pending_sync
        = dec_pending_wrap (check_synchronized ⟨9, 5, [], false, 1⟩ 3).2.pending_sync) :=
  check_synchronized_repeat ⟨9, 5, [], false, 1⟩ 3 (by decide)

/-- C4 (amended): an initiator constructed with start_sync = false gets
required_frontier 0 and the construction changes no state; when the stored
global frontier is at most half the counter range (always true below the
reset threshold) the first check_synchronized returns true immediately on
the fast path and leaves the frontier untouched — but, being a successful
check, it decrements _pending_sync rather than leaving it unchanged. -/
theorem construct_no_sync_spec (s : EpochState)
    (hgf : s.global_frontier % uintx_mod ≤ max_uintx / 2) :
    (construct_synchronizer false s).1 = 0 ∧
    (construct_synchronizer false s).2 = s ∧
    (check_synchronized s 0).1 = true ∧
    (check_synchronized s 0).2.global_frontier = s.global_frontier ∧
    (check_synchronized s 0).2.global_epoch = s.global_epoch ∧
    (check_synchronized s 0).2.pending_sync = dec_pending_wrap s.pending_sync := by
  have h0 : frontier_happens_before s.global_frontier 0 = false := by
    unfold frontier_happens_before sub_wrap
    rw [uintx_mod_eq] at *
    rw [max_uintx_eq] at *
    simp only [decide_eq_false_iff_not, not_lt]
    omega
  refine ⟨rfl, rfl, ?_, ?_, ?_, ?_⟩ <;> (rw [check_synchronized_eq, h0]; simp)

/-- counterexample to C4 as stated: with global state all zero and
_pending_sync 7, constructing with start_sync = false leaves _pending_sync
at 7, but the first check_synchronized call, though it returns true
immediately, decrements _pending_sync to 6, so the call does not leave
_pending_sync unchanged. -/
theorem construct_no_sync_counterexample :
    (construct_synchronizer false ⟨0, 0, [], false, 7⟩).2.pending_sync = 7 ∧
    (check_synchronized (construct_synchronizer false ⟨0, 0, [], false, 7⟩).2 0).1 = true ∧
    (check_synchronized (construct_synchronizer false ⟨0, 0, [], false, 7⟩).2 0).2.pending_sync
      ≠ 7 := by
  refine ⟨by decide, by decide, by decide⟩

/-- witness for C4 at the concrete state with all counters zero except
_pending_sync = 7. -/
theorem construct_no_sync_spec_witness :
    (construct_synchronizer false ⟨0, 0, [], false, 7⟩).1 = 0 ∧
    (construct_synchronizer false ⟨0, 0, [], false, 7⟩).2 = ⟨0, 0, [], false, 7⟩ ∧
    (check_synchronized ⟨0, 0, [], false, 7⟩ 0).1 = true ∧
    (check_synchronized ⟨0, 0, [], false, 7⟩ 0).2.global_frontier
      = EpochState.global_frontier ⟨0, 0, [], false, 7⟩ ∧
    (check_synchronized ⟨0, 0, [], false, 7⟩ 0).2.global_epoch
      = EpochState.global_epoch ⟨0, 0, [], false, 7⟩ ∧
    (check_synchronized ⟨0, 0, [], false, 7⟩ 0).2.pending_sync
      = dec_pending_wrap (EpochState.pending_sync ⟨0, 0, [], false, 7⟩) :=
  construct_no_sync_spec ⟨0, 0, [], false, 7⟩ (by decide)

/-- G1EpochSynchronizer::reset_all_epoch of the native-comparison
generation, run at a safepoint on the VM thread: zero the global epoch and
frontier, drain the deferred buffer (its length deferred_sync is produced
by the external dirty-card-queue set and is a parameter here), zero every
mutator local epoch through G1ResetEpochClosure, clear the scheduled flag,
and assert _pending_sync == deferred_sync.  Returns the new state together
with the value of the asserted condition. -/
def reset_all_epoch (s : EpochState) (deferred_sync : Nat) : EpochState × Bool :=
  ({ global_epoch := 0,
     global_frontier := 0,
     epochs := s.epochs.map (fun _ => 0),
     reset_scheduled := false,
     pending_sync := s.pending_sync },
   s.pending_sync == deferred_sync)

/-- C8: after reset_all_epoch the global epoch is 0, the global frontier is
0, every mutator local epoch is 0 and the reset flag is cleared;
_pending_sync itself is not modified by the reset, and the assertion it
evaluates is exactly the comparison of _pending_sync with the drained
deferred-buffer length. -/
theorem reset_all_epoch_post (s : EpochState) (deferred_sync : Nat) :
    (reset_all_epoch s deferred_sync).1.global_epoch = 0 ∧
    (reset_all_epoch s deferred_sync).1.global_frontier = 0 ∧
    ((reset_all_epoch s deferred_sync).1.epochs.all fun e => e == 0) = true ∧
    (reset_all_epoch s deferred_sync).1.reset_scheduled = false ∧
    (reset_all_epoch s deferred_sync).1.pending_sync = s.pending_sync ∧
    (reset_all_epoch s deferred_sync).2 = (s.pending_sync == deferred_sync) := by
  refine ⟨rfl, rfl, ?_, rfl, rfl, rfl⟩
  unfold reset_all_epoch
  simp [List.all_eq_true]

/-- statistics record of G1EpochSynchronizerStats: two Tickspan counters
and two size_t counters, all modelled modulo 2^64. -/
structure G1EpochSynchronizerStats where
  fast_sync_time : Nat
  deferred_sync_time : Nat
  fast_syncs : Nat
  deferred_syncs : Nat
deriving DecidableEq

/-- the default G1EpochSynchronizerStats constructor: all counters zero. -/
def stats_default : G1EpochSynchronizerStats := ⟨0, 0, 0, 0⟩

/-- componentwise wrapping addition, the effect of operator+= (and thus of
the derived operator+) on the four counters. -/
def stats_add (x y : G1EpochSynchronizerStats) : G1EpochSynchronizerStats :=
  ⟨(x.fast_sync_time + y.fast_sync_time) % uintx_mod,
   (x.deferred_sync_time + y.deferred_sync_time) % uintx_mod,
   (x.fast_syncs + y.fast_syncs) % uintx_mod,
   (x.deferred_syncs + y.deferred_syncs) % uintx_mod⟩

/-- componentwise wrapping subtraction, the effect of operator-= (and thus
of the derived operator-) on the four counters. -/
def stats_sub (x y : G1EpochSynchronizerStats) : G1EpochSynchronizerStats :=
  ⟨sub_wrap x.fast_sync_time y.fast_sync_time,
   sub_wrap x.deferred_sync_time y.deferred_sync_time,
   sub_wrap x.fast_syncs y.fast_syncs,
   sub_wrap x.deferred_syncs y.deferred_syncs⟩

/-- a stats value whose four counters are in range for their 64-bit
representation. -/
def stats_normalized (x : G1EpochSynchronizerStats) : Prop :=
  x.fast_sync_time < uintx_mod ∧ x.deferred_sync_time < uintx_mod ∧
  x.fast_syncs < uintx_mod ∧ x.deferred_syncs < uintx_mod

lemma sub_wrap_add_cancel (a b : Nat) (ha : a < uintx_mod) :
    sub_wrap ((a + b) % uintx_mod) b = a := by
  unfold sub_wrap
  rw [uintx_mod_eq] at *
  omega

/-- C10: stats addition and subtraction act componentwise on the four
counters under wraparound arithmetic, subtracting y after adding y gives
back every in-range x, and the default-constructed all-zero stats value is
a left and right identity for addition. -/
theorem stats_componentwise_algebra (x y : G1EpochSynchronizerStats)
    (hx : stats_normalized x) :
    stats_sub (stats_add x y) y = x ∧
    stats_add stats_default x = x ∧
    stats_add x stats_default = x ∧
    (stats_add x y).fast_sync_time = (x.fast_sync_time + y.fast_sync_time) % uintx_mod ∧
    (stats_add x y).deferred_syncs = (x.deferred_syncs + y.deferred_syncs) % uintx_mod ∧
    (stats_sub x y).fast_syncs = sub_wrap x.fast_syncs y.fast_syncs := by
  obtain ⟨x1, x2, x3, x4⟩ := x
  obtain ⟨y1, y2, y3, y4⟩ := y
  have b1 : x1 < uintx_mod := hx.1
  have b2 : x2 < uintx_mod := hx.2.1
  have b3 : x3 < uintx_mod := hx.2.2.1
  have b4 : x4 < uintx_mod := hx.2.2.2
  refine ⟨?_, ?_, ?_, rfl, rfl, rfl⟩
  · unfold stats_add stats_sub
    simp only [G1EpochSynchronizerStats.mk.injEq]
    exact ⟨sub_wrap_add_cancel x1 y1 b1, sub_wrap_add_cancel x2 y2 b2,
           sub_wrap_add_cancel x3 y3 b3, sub_wrap_add_cancel x4 y4 b4⟩
  · unfold stats_add stats_default
    simp only [G1EpochSynchronizerStats.mk.injEq]
    refine ⟨?_, ?_, ?_, ?_⟩ <;> (rw [uintx_mod_eq] at b1 b2 b3 b4 ⊢; omega)
  · unfold stats_add stats_default
    simp only [G1EpochSynchronizerStats.mk.injEq]
    refine ⟨?_, ?_, ?_, ?_⟩ <;> (rw [uintx_mod_eq] at b1 b2 b3 b4 ⊢; omega)

/-- witness for C10 at the concrete stats values (1, 2, 3, 4) and
(10, 20, 30, 40). -/
theorem stats_componentwise_algebra_witness :
    stats_sub (stats_add ⟨1, 2, 3, 4⟩ ⟨10, 20, 30, 40⟩) ⟨10, 20, 30, 40⟩
        = (⟨1, 2, 3, 4⟩ : G1EpochSynchronizerStats) ∧
    stats_add stats_default ⟨1, 2, 3, 4⟩ = (⟨1, 2, 3, 4⟩ : G1EpochSynchronizerStats) :=
  ⟨(stats_componentwise_algebra ⟨1, 2, 3, 4⟩ ⟨10, 20, 30, 40⟩
      (by unfold stats_normalized; decide)).1,
   (stats_componentwise_algebra ⟨1, 2, 3, 4⟩ ⟨10, 20, 30, 40⟩
      (by unfold stats_normalized; decide)).2.1⟩

/-- one iteration of the spin loop in G1EpochSynchronizer::synchronize, as
observed by the initiator: the result of this round of
check_synchronized(), whether SuspendibleThreadSet::should_yield() holds
(variant B only), and the elapsed nanoseconds os::elapsed_counter() minus
the start timestamp. -/
structure SpinObs where
  check : Bool
  yield_requested : Bool
  elapsed : Int

/-- nanoseconds per millisecond, the HotSpot constant. -/
def NANOSECS_PER_MILLISEC : Int := 1000000

/-- the timeout threshold _SYNCHRONIZE_WAIT_NS in debug builds. -/
def SYNCHRONIZE_WAIT_NS_debug : Int := 3

/-- the timeout threshold _SYNCHRONIZE_WAIT_NS in release builds. -/
def SYNCHRONIZE_WAIT_NS_release : Int := 3 * NANOSECS_PER_MILLISEC

/-- the spin loop of synchronize() in the straggler-collection generation
(variant A): while check_synchronized() fails, return false once elapsed
exceeds the wait threshold, otherwise yield and retry.  The trace lists
the observations of successive iterations; none means the trace ended with
the loop still spinning. -/
def synchronize_loopA (wait : Int) : List SpinObs → Option Bool
  | [] => none
  | o :: rest =>
    if o.check then some true
    else if o.elapsed > wait then some false
    else synchronize_loopA wait rest

/-- synchronize() of the straggler-collection generation (variant A):
return true if the first check_synchronized() succeeds; otherwise escalate
via async_handshake — threads is its return value — and return true at
once when it is 0; otherwise enter the spin loop. -/
def synchronizeA (wait : Int) (first_check : Bool) (threads : Nat)
    (spins : List SpinObs) : Option Bool :=
  if first_check then some true
  else if threads = 0 then some true
  else synchronize_loopA wait spins

/-- the spin loop of synchronize() in the arm-poll generation (variant B):
as variant A, but the loop also exits with false when the caller must
yield to the suspendible thread set. -/
def synchronize_loopB (wait : Int) : List SpinObs → Option Bool
  | [] => none
  | o :: rest =>
    if o.check then some true
    else if o.yield_requested || decide (o.elapsed > wait) then some false
    else synchronize_loopB wait rest

/-- synchronize() of the arm-poll generation (variant B): as variant A
with arm_local_polls as the escalation and the extended exit condition in
the spin loop. -/
def synchronizeB (wait : Int) (first_check : Bool) (threads : Nat)
    (spins : List SpinObs) : Option Bool :=
  if first_check then some true
  else if threads = 0 then some true
  else synchronize_loopB wait spins

lemma synchronize_loopA_false_mem (wait : Int) (spins : List SpinObs)
    (h : synchronize_loopA wait spins = some false) :
    ∃ o ∈ spins, o.check = false ∧ o.elapsed > wait := by
  induction spins with
  | nil => simp [synchronize_loopA] at h
  | cons o rest ih =>
    unfold synchronize_loopA at h
    by_cases hc : o.check
    · rw [if_pos hc] at h
      simp at h
    · rw [if_neg hc] at h
      by_cases he : o.elapsed > wait
      · exact ⟨o, by simp, by simpa using hc, he⟩
      · rw [if_neg he] at h
        obtain ⟨p, hp, h1, h2⟩ := ih h
        exact ⟨p, by simp [hp], h1, h2⟩

lemma synchronize_loopB_false_mem (wait : Int) (spins : List SpinObs)
    (h : synchronize_loopB wait spins = some false) :
    ∃ o ∈ spins, o.check = false ∧ (o.yield_requested = true ∨ o.elapsed > wait) := by
  induction spins with
  | nil => simp [synchronize_loopB] at h
  | cons o rest ih =>
    unfold synchronize_loopB at h
    by_cases hc : o.check
    · rw [if_pos hc] at h
      simp at h
    · rw [if_neg hc] at h
      by_cases hd : (o.yield_requested || decide (o.elapsed > wait)) = true
      · refine ⟨o, by simp, by simpa using hc, ?_⟩
        simpa using hd
      · rw [if_neg hd] at h
        obtain ⟨p, hp, h1, h2⟩ := ih h
        exact ⟨p, by simp [hp], h1, h2⟩

lemma synchronize_loopA_prefix_true (wait : Int) (o : SpinObs) (rest : List SpinObs) :
    ∀ pre : List SpinObs,
      (∀ p ∈ pre, p.check = false ∧ ¬ (p.elapsed > wait)) → o.check = true →
      synchronize_loopA wait (pre ++ o :: rest) = some true := by
  intro pre
  induction pre with
  | nil =>
    intro _ ho
    rw [List.nil_append]
    unfold synchronize_loopA
    rw [if_pos ho]
  | cons q qs ih =>
    intro hpre ho
    have hq := hpre q (by simp)
    rw [List.cons_append]
    unfold synchronize_loopA
    rw [if_neg (by simp [hq.1]), if_neg hq.2]
    exact ih (fun p hp => hpre p (by simp [hp])) ho

lemma synchronize_loopB_prefix_true (wait : Int) (o : SpinObs) (rest : List SpinObs) :
    ∀ pre : List SpinObs,
      (∀ p ∈ pre, p.check = false ∧ p.yield_requested = false ∧ ¬ (p.elapsed > wait)) →
      o.check = true →
      synchronize_loopB wait (pre ++ o :: rest) = some true := by
  intro pre
  induction pre with
  | nil =>
    intro _ ho
    rw [List.nil_append]
    unfold synchronize_loopB
    rw [if_pos ho]
  | cons q qs ih =>
    intro hpre ho
    have hq := hpre q (by simp)
    rw [List.cons_append]
    unfold synchronize_loopB
    rw [if_neg (by simp [hq.1]), if_neg (by simp [hq.2.1, hq.2.2])]
    exact ih (fun p hp => hpre p (by simp [hp])) ho

/-- C5: in both generations of synchronize(), the call returns Deferred
(false) only when escalation reached at least one thread and a spin
iteration with a failed re-check hit the exit condition — elapsed time
above the wait threshold, or (variant B) a required yield to the
suspendible thread set; when the first check succeeds, or no thread needed
escalation, or a re-check succeeds before any exit condition fires, it
returns Complete (true); and the wait threshold is 3 ns in debug builds
and 3 ms in release builds. -/
theorem synchronize_deferred_characterization
    (wait : Int) (first_check : Bool) (threads : Nat)
    (spins pre rest : List SpinObs) (o : SpinObs) :
    (synchronizeA wait first_check threads spins = some false →
       first_check = false ∧ threads ≠ 0 ∧
       ∃ p ∈ spins, p.check = false ∧ (p.elapsed > wait ∨ p.yield_requested = true)) ∧
    (synchronizeB wait first_check threads spins = some false →
       first_check = false ∧ threads ≠ 0 ∧
       ∃ p ∈ spins, p.check = false ∧ (p.yield_requested = true ∨ p.elapsed > wait)) ∧
    (first_check = true →
       synchronizeA wait first_check threads spins = some true ∧
       synchronizeB wait first_check threads spins = some true) ∧
    (threads = 0 →
       synchronizeA wait first_check threads spins = some true ∧
       synchronizeB wait first_check threads spins = some true) ∧
    ((∀ p ∈ pre, p.check = false ∧ ¬ (p.elapsed > wait)) → o.check = true →
       synchronizeA wait false (threads + 1) (pre ++ o :: rest) = some true) ∧
    ((∀ p ∈ pre, p.check = false ∧ p.yield_requested = false ∧ ¬ (p.elapsed > wait)) →
     o.check = true →
       synchronizeB wait false (threads + 1) (pre ++ o :: rest) = some true) ∧
    SYNCHRONIZE_WAIT_NS_debug = 3 ∧
    SYNCHRONIZE_WAIT_NS_release = 3 * 1000000 := by
  refine ⟨?_, ?_, ?_, ?_, ?_, ?_, by decide, by decide⟩
  · intro h
    unfold synchronizeA at h
    by_cases hf : first_check
    · rw [if_pos hf] at h
      simp at h
    · rw [if_neg hf] at h
      by_cases ht : threads = 0
      · rw [if_pos ht] at h
        simp at h
      · rw [if_neg ht] at h
        obtain ⟨p, hp, h1, h2⟩ := synchronize_loopA_false_mem wait spins h
        exact ⟨by simpa using hf, ht, p, hp, h1, Or.inl h2⟩
  · intro h
    unfold synchronizeB at h
    by_cases hf : first_check
    · rw [if_pos hf] at h
      simp at h
    · rw [if_neg hf] at h
      by_cases ht : threads = 0
      · rw [if_pos ht] at h
        simp at h
      · rw [if_neg ht] at h
        obtain ⟨p, hp, h1, h2⟩ := synchronize_loopB_false_mem wait spins h
        exact ⟨by simpa using hf, ht, p, hp, h1, h2⟩
  · intro hf
    unfold synchronizeA synchronizeB
    rw [if_pos hf, if_pos hf]
    exact ⟨rfl, rfl⟩
  · intro ht
    unfold synchronizeA synchronizeB
    by_cases hf : first_check
    · rw [if_pos hf, if_pos hf]
      exact ⟨rfl, rfl⟩
    · rw [if_neg hf, if_neg hf, if_pos ht, if_pos ht]
      exact ⟨rfl, rfl⟩
  · intro hpre ho
    unfold synchronizeA
    rw [if_neg (by simp), if_neg (by omega)]
    exact synchronize_loopA_prefix_true wait o rest pre hpre ho
  · intro hpre ho
    unfold synchronizeB
    rw [if_neg (by simp), if_neg (by omega)]
    exact synchronize_loopB_prefix_true wait o rest pre hpre ho
